import Mathlib

/-!
Verification development for the notebook materialization subsystem of the
Paper2Notebook repository (backend/api/app/materialize/*).

The Python sources are embedded shallowly: every pure code-generation
function becomes a Lean function on explicit data.  Machine-level details
modelled explicitly:
  * Python `sorted` over strings compares Unicode code points
    lexicographically; `lexLe` below implements exactly that order.
  * `sorted(set(xs))` is modelled by `pySortedSet` (dedup, then mergeSort).
  * `hashlib.sha256(...).hexdigest()` is implemented bit-for-bit over the
    UTF-8 bytes of the input (32-bit words as `Nat` with explicit `% 2^32`).
  * `nbformat`'s cell constructors (`new_code_cell` / `new_markdown_cell`,
    nbformat ≥ 5.1) draw a fresh random cell id for every cell; the stream
    of drawn ids is modelled as an explicit argument `ids : Nat → String`.
Parts of the repository that are referenced but absent from the source tree
(the dataset registry module, the plan schema, the model generator) are
modelled from the specification; their doc comments say so explicitly.
-/

/-- Lexicographic comparison of character lists by code point, the order
Python's `sorted` uses on `str`. -/
def lexLe : List Char → List Char → Bool
  | [], _ => true
  | _ :: _, [] => false
  | a :: as, b :: bs => if a < b then true else if b < a then false else lexLe as bs

/-- String comparison used to model Python's `sorted` on strings. -/
def strLe (a b : String) : Bool := lexLe a.data b.data

theorem lexLe_refl (l : List Char) : lexLe l l = true := by
  induction l with
  | nil => rfl
  | cons a as ih => simp [lexLe, lt_irrefl, ih]

theorem lexLe_total (l₁ l₂ : List Char) : lexLe l₁ l₂ = true ∨ lexLe l₂ l₁ = true := by
  induction l₁ generalizing l₂ with
  | nil => exact .inl rfl
  | cons a as ih =>
    cases l₂ with
    | nil => exact .inr rfl
    | cons b bs =>
      rcases lt_trichotomy a b with h | h | h
      · exact .inl (by simp [lexLe, h])
      · subst h
        rcases ih bs with h' | h'
        · exact .inl (by simp [lexLe, lt_irrefl, h'])
        · exact .inr (by simp [lexLe, lt_irrefl, h'])
      · exact .inr (by simp [lexLe, h])

theorem lexLe_trans {l₁ l₂ l₃ : List Char} (h₁ : lexLe l₁ l₂ = true)
    (h₂ : lexLe l₂ l₃ = true) : lexLe l₁ l₃ = true := by
  induction l₁ generalizing l₂ l₃ with
  | nil => rfl
  | cons a as ih =>
    cases l₂ with
    | nil => simp [lexLe] at h₁
    | cons b bs =>
      cases l₃ with
      | nil => simp [lexLe] at h₂
      | cons c cs =>
        simp only [lexLe] at h₁ h₂ ⊢
        by_cases hab : a < b
        · by_cases hbc : b < c
          · simp [lt_trans hab hbc]
          · by_cases hcb : c < b
            · simp [hbc, hcb] at h₂
            · have : b = c := le_antisymm (le_of_not_lt hcb) (le_of_not_lt hbc)
              subst this
              simp [hab]
        · by_cases hba : b < a
          · simp [hab, hba] at h₁
          · have hab' : a = b := le_antisymm (le_of_not_lt hba) (le_of_not_lt hab)
            subst hab'
            by_cases hac : a < c
            · simp [hac]
            · by_cases hca : c < a
              · simp [hac, hca] at h₂
              · have : a = c := le_antisymm (le_of_not_lt hca) (le_of_not_lt hac)
                subst this
                simp [lt_irrefl] at h₁ h₂ ⊢
                exact ih h₁ h₂

theorem lexLe_antisymm {l₁ l₂ : List Char} (h₁ : lexLe l₁ l₂ = true)
    (h₂ : lexLe l₂ l₁ = true) : l₁ = l₂ := by
  induction l₁ generalizing l₂ with
  | nil =>
    cases l₂ with
    | nil => rfl
    | cons b bs => simp [lexLe] at h₂
  | cons a as ih =>
    cases l₂ with
    | nil => simp [lexLe] at h₁
    | cons b bs =>
      simp only [lexLe] at h₁ h₂
      by_cases hab : a < b
      · simp [hab, asymm hab] at h₂
      · by_cases hba : b < a
        · simp [hab, hba] at h₁
        · have hab' : a = b := le_antisymm (le_of_not_lt hba) (le_of_not_lt hab)
          subst hab'
          simp [lt_irrefl] at h₁ h₂
          exact congrArg (a :: ·) (ih h₁ h₂)

theorem strLe_total (a b : String) : strLe a b = true ∨ strLe b a = true :=
  lexLe_total a.data b.data

theorem strLe_trans {a b c : String} (h₁ : strLe a b = true) (h₂ : strLe b c = true) :
    strLe a c = true := lexLe_trans h₁ h₂

theorem strLe_antisymm {a b : String} (h₁ : strLe a b = true) (h₂ : strLe b a = true) :
    a = b := String.ext (lexLe_antisymm h₁ h₂)

instance : IsAntisymm String (fun a b => strLe a b = true) := ⟨fun _ _ => strLe_antisymm⟩

/-- Model of Python's `sorted(<set built from xs>)`: the distinct elements of
`xs` listed in ascending string order. -/
def pySortedSet (xs : List String) : List String := xs.dedup.mergeSort strLe

theorem pySortedSet_perm_dedup (xs : List String) : (pySortedSet xs).Perm xs.dedup :=
  List.mergeSort_perm xs.dedup strLe

theorem pySortedSet_sorted (xs : List String) :
    List.Sorted (fun a b => strLe a b = true) (pySortedSet xs) :=
  @List.sorted_mergeSort String strLe (fun _ _ _ h₁ h₂ => strLe_trans h₁ h₂)
    (fun a b => by rcases strLe_total a b with h | h <;> simp [h]) xs.dedup

theorem pySortedSet_nodup (xs : List String) : (pySortedSet xs).Nodup :=
  ((pySortedSet_perm_dedup xs).symm.nodup (xs.nodup_dedup))

theorem mem_pySortedSet {x : String} {xs : List String} :
    x ∈ pySortedSet xs ↔ x ∈ xs := by
  rw [(pySortedSet_perm_dedup xs).mem_iff, List.mem_dedup]

/-- Key invariance: `sorted(set(xs))` depends only on the multiset of `xs`
(indeed only on its set of elements). -/
theorem pySortedSet_perm_invariant {xs ys : List String} (h : xs.Perm ys) :
    pySortedSet xs = pySortedSet ys := by
  apply List.eq_of_perm_of_sorted _ (pySortedSet_sorted xs) (pySortedSet_sorted ys)
  exact ((pySortedSet_perm_dedup xs).trans h.dedup).trans (pySortedSet_perm_dedup ys).symm

/-- UTF-8 encoding of one character, as its list of bytes. -/
def charUtf8 (c : Char) : List Nat :=
  let n := c.toNat
  if n < 128 then [n]
  else if n < 2048 then [192 + n / 64, 128 + n % 64]
  else if n < 65536 then [224 + n / 4096, 128 + (n / 64) % 64, 128 + n % 64]
  else [240 + n / 262144, 128 + (n / 4096) % 64, 128 + (n / 64) % 64, 128 + n % 64]

/-- UTF-8 encoding of a string, as a list of bytes (the bytes Python's
`str.encode("utf-8")` produces). -/
def utf8Bytes (s : String) : List Nat := s.data.flatMap charUtf8

/-- Reduction of a `Nat` to a 32-bit word value. -/
def w32 (n : Nat) : Nat := n % 4294967296

/-- Right rotation of a 32-bit word by `k` bits. -/
def rotr32 (k x : Nat) : Nat := w32 ((x >>> k) ||| (x <<< (32 - k)))

def sha256BigSigma0 (x : Nat) : Nat := rotr32 2 x ^^^ rotr32 13 x ^^^ rotr32 22 x

def sha256BigSigma1 (x : Nat) : Nat := rotr32 6 x ^^^ rotr32 11 x ^^^ rotr32 25 x

def sha256SmallSigma0 (x : Nat) : Nat := rotr32 7 x ^^^ rotr32 18 x ^^^ (x >>> 3)

def sha256SmallSigma1 (x : Nat) : Nat := rotr32 17 x ^^^ rotr32 19 x ^^^ (x >>> 10)

def sha256Ch (x y z : Nat) : Nat := (x &&& y) ^^^ ((x ^^^ 4294967295) &&& z)

def sha256Maj (x y z : Nat) : Nat := (x &&& y) ^^^ (x &&& z) ^^^ (y &&& z)

/-- The 64 SHA-256 round constants. -/
def sha256K : List Nat :=
  [1116352408, 1899447441, 3049323471, 3921009573, 961987163,
   1508970993, 2453635748, 2870763221, 3624381080, 310598401,
   607225278, 1426881987, 1925078388, 2162078206, 2614888103,
   3248222580, 3835390401, 4022224774, 264347078, 604807628,
   770255983, 1249150122, 1555081692, 1996064986, 2554220882,
   2821834349, 2952996808, 3210313671, 3336571891, 3584528711,
   113926993, 338241895, 666307205, 773529912, 1294757372,
   1396182291, 1695183700, 1986661051, 2177026350, 2456956037,
   2730485921, 2820302411, 3259730800, 3345764771, 3516065817,
   3600352804, 4094571909, 275423344, 430227734, 506948616,
   659060556, 883997877, 958139571, 1322822218, 1537002063,
   1747873779, 1955562222, 2024104815, 2227730452, 2361852424,
   2428436474, 2756734187, 3204031479, 3329325298]

/-- The SHA-256 initial hash state. -/
def sha256H0 : List Nat :=
  [1779033703, 3144134277, 1013904242, 2773480762, 1359893119,
   2600822924, 528734635, 1541459225]

/-- Big-endian byte rendering of `n` over `k` bytes. -/
def toBytesBE (k n : Nat) : List Nat := (List.range k).reverse.map (fun i => (n >>> (8 * i)) % 256)

/-- SHA-256 message padding: append `0x80`, zeros, and the 64-bit big-endian
bit length, reaching a multiple of 64 bytes. -/
def sha256Pad (m : List Nat) : List Nat :=
  m ++ 128 :: List.replicate ((64 - (m.length + 9) % 64) % 64) 0 ++ toBytesBE 8 (m.length * 8)

/-- Split a byte list into 64-byte blocks. -/
def chunks64 (l : List Nat) : List (List Nat) :=
  if _h : l.length = 0 then [] else l.take 64 :: chunks64 (l.drop 64)
termination_by l.length
decreasing_by
  simp only [List.length_drop]
  omega

/-- The sixteen 32-bit big-endian words of one 64-byte block. -/
def blockWords (b : List Nat) : List Nat :=
  (List.range 16).map (fun i =>
    b.getD (4 * i) 0 * 16777216 + b.getD (4 * i + 1) 0 * 65536 +
      b.getD (4 * i + 2) 0 * 256 + b.getD (4 * i + 3) 0)

/-- Extend 16 schedule words to 64. -/
def sha256Extend (ws : List Nat) : List Nat :=
  (List.range 48).foldl (fun acc j =>
    let i := j + 16
    acc ++ [w32 (sha256SmallSigma1 (acc.getD (i - 2) 0) + acc.getD (i - 7) 0 +
      sha256SmallSigma0 (acc.getD (i - 15) 0) + acc.getD (i - 16) 0)]) ws

/-- One SHA-256 compression round. -/
def sha256Round (ws : List Nat) (st : List Nat) (i : Nat) : List Nat :=
  let a := st.getD 0 0
  let b := st.getD 1 0
  let c := st.getD 2 0
  let d := st.getD 3 0
  let e := st.getD 4 0
  let f := st.getD 5 0
  let g := st.getD 6 0
  let h := st.getD 7 0
  let t1 := w32 (h + sha256BigSigma1 e + sha256Ch e f g + sha256K.getD i 0 + ws.getD i 0)
  let t2 := w32 (sha256BigSigma0 a + sha256Maj a b c)
  [w32 (t1 + t2), a, b, c, w32 (d + t1), e, f, g]

/-- Process one 64-byte block. -/
def sha256Block (h : List Nat) (block : List Nat) : List Nat :=
  let ws := sha256Extend (blockWords block)
  let fin := (List.range 64).foldl (sha256Round ws) h
  (List.range 8).map (fun i => w32 (h.getD i 0 + fin.getD i 0))

/-- Lower-case hex digit for a value below 16. -/
def hexDigit (n : Nat) : Char := if n < 10 then Char.ofNat (48 + n) else Char.ofNat (87 + n)

/-- Eight-hex-digit rendering of a 32-bit word. -/
def toHex8 (n : Nat) : List Char := (List.range 8).reverse.map (fun i => hexDigit ((n >>> (4 * i)) % 16))

/-- `hashlib.sha256(s.encode("utf-8")).hexdigest()`. -/
def sha256hex (s : String) : String :=
  let digest := (chunks64 (sha256Pad (utf8Bytes s))).foldl sha256Block sha256H0
  String.mk (digest.flatMap toHex8)

/-- Modelled from the spec: the plan schema module (`app/schemas/plan_v1_1.py`)
is not in the source tree.  Spec §6 lists the fields the core reads:
`dataset.{name, split, notes}`. -/
structure PlanDataset where
  name : String
  split : String
  notes : Option String
deriving DecidableEq, Repr

/-- Modelled from the spec: `model.name` is the only model field the core reads. -/
structure PlanModel where
  name : String
deriving DecidableEq, Repr

/-- Modelled from the spec: `config.{seed, framework, budget_minutes}`. -/
structure PlanConfig where
  seed : Int
  framework : String
  budget_minutes : Nat
deriving DecidableEq, Repr

/-- Modelled from the spec: `metrics[].name`. -/
structure PlanMetric where
  name : String
deriving DecidableEq, Repr

/-- Modelled from the spec: the validated plan document consumed by the
materialization core (immutable input). -/
structure PlanDocumentV11 where
  dataset : PlanDataset
  model : PlanModel
  config : PlanConfig
  metrics : List PlanMetric
deriving DecidableEq, Repr

/-- The fields of `app/data/models.py` `PaperRecord` that the materialization
code reads (the Phase A.5 dataset-upload fields plus the record id). -/
structure PaperRecord where
  id : String
  dataset_storage_path : Option String
  dataset_format : Option String
  dataset_original_filename : Option String
deriving DecidableEq, Repr

/-- Python truthiness of an optional string: `None` and `""` are falsy. -/
def pyTruthy : Option String → Bool
  | none => false
  | some s => !s.isEmpty

/-- Python `str(...)` of an optional string as rendered by an f-string:
`None` prints as `"None"`. -/
def pyStrOpt : Option String → String
  | none => "None"
  | some s => s

/-- Modelled from the spec: `DatasetSource` lives in the absent
`dataset_registry.py`.  The four recognized variants come from the factory's
dispatch; `OTHER` stands for an unrecognized declared source (spec §4.3
step 4 explicitly handles that case). -/
inductive DatasetSource where
  | SKLEARN : DatasetSource
  | TORCHVISION : DatasetSource
  | HUGGINGFACE : DatasetSource
  | EXCEL : DatasetSource
  | OTHER : String → DatasetSource
deriving DecidableEq, Repr

/-- Modelled from the spec: `DatasetMetadata` of the absent
`dataset_registry.py` (fields per spec §3, plus the `hf_path` field the
HuggingFace generator reads). -/
structure DatasetMetadata where
  source : DatasetSource
  load_function : String
  typical_size_mb : Nat
  license : String
  hf_path : List String
deriving DecidableEq, Repr

/-- The apostrophe character, written via its code point. -/
def aposChar : Char := Char.ofNat 39

/-- Modelled from the spec: possessive-suffix removal inside
`normalize_dataset_name` (spec §4.1 requires `"AG's News"` to reach the same
key as `"AG News"`). -/
def removePossessive : List Char → List Char
  | [] => []
  | [c] => [c]
  | c :: c2 :: rest =>
    if c = aposChar ∧ c2 = 's' then removePossessive rest
    else c :: removePossessive (c2 :: rest)

/-- ASCII lower-casing of one character (Python `str.lower` on the ASCII
names the registry deals with). -/
def toLowerChar (c : Char) : Char :=
  if 65 ≤ c.toNat ∧ c.toNat ≤ 90 then Char.ofNat (c.toNat + 32) else c

/-- Characters kept by normalization: lower-case ASCII letters and digits
(punctuation, separators and whitespace are all stripped). -/
def isKeptChar (c : Char) : Bool :=
  (97 ≤ c.toNat && c.toNat ≤ 122) || (48 ≤ c.toNat && c.toNat ≤ 57)

def normalizeChars (l : List Char) : List Char :=
  (removePossessive (l.map toLowerChar)).filter isKeptChar

/-- Modelled from the spec: `normalize_dataset_name` of the absent
`dataset_registry.py`.  Spec §4.1: lower-case, strip punctuation and
separators, collapse whitespace, so that "AG News", "ag_news" and
"AG's News" share one canonical key; must be idempotent. -/
def normalize_dataset_name (s : String) : String :=
  String.mk (normalizeChars s.data)

/-- Modelled from the spec: the static registry table of the absent
`dataset_registry.py`.  Entries and sources are taken from the generator
docstrings in `dataset.py` (sklearn: digits/iris/wine/breast-cancer;
torchvision: MNIST/FashionMNIST/CIFAR10; HuggingFace: SST-2/IMDB/AG
News/TREC); keys are stored normalized. -/
def DATASET_REGISTRY : List (String × DatasetMetadata) :=
  [("digits", ⟨.SKLEARN, "load_digits", 1, "bsd", []⟩),
   ("iris", ⟨.SKLEARN, "load_iris", 1, "bsd", []⟩),
   ("wine", ⟨.SKLEARN, "load_wine", 1, "bsd", []⟩),
   ("breastcancer", ⟨.SKLEARN, "load_breast_cancer", 1, "bsd", []⟩),
   ("mnist", ⟨.TORCHVISION, "MNIST", 12, "cc-by-sa", []⟩),
   ("fashionmnist", ⟨.TORCHVISION, "FashionMNIST", 30, "mit", []⟩),
   ("cifar10", ⟨.TORCHVISION, "CIFAR10", 170, "mit", []⟩),
   ("sst2", ⟨.HUGGINGFACE, "load_dataset", 67, "unspecified", ["glue", "sst2"]⟩),
   ("imdb", ⟨.HUGGINGFACE, "load_dataset", 130, "unspecified", ["imdb"]⟩),
   ("agnews", ⟨.HUGGINGFACE, "load_dataset", 20, "unspecified", ["ag_news"]⟩),
   ("trec", ⟨.HUGGINGFACE, "load_dataset", 5, "unspecified", ["trec"]⟩)]

/-- Modelled from the spec: `lookup_dataset` of the absent
`dataset_registry.py` — look up the normalized key in the static table,
returning not-found rather than raising (spec §4.1). -/
def lookup_dataset (name : String) : Option DatasetMetadata :=
  (DATASET_REGISTRY.find? (fun p => p.fst == normalize_dataset_name name)).map Prod.snd

/-!
Generated code bodies.  Each definition below is the exact string the
corresponding Python generator method returns (`textwrap.dedent(...).strip()`
already applied); f-string interpolation points become Lean string
concatenation.  Braces and apostrophes appearing in the generated Python
text are written with `\x7b`, `\x7d` and `\x27` escapes.
-/

def syntheticCode (plan : PlanDocumentV11) : String :=
    "log_event(\n    \"stage_update\",\n    \x7b\n        \"stage\": \"dataset_load\",\n        \"dataset\": \"" ++
    plan.dataset.name ++
    "\",\n        \"split\": \"" ++
    plan.dataset.split ++
    "\",\n    \x7d,\n)\n\nX, y = make_classification(\n    n_samples=512,\n    n_features=32,\n" ++
    "    n_informative=16,\n    n_redundant=4,\n    random_state=SEED,\n)\n" ++
    "X_train, X_test, y_train, y_test = train_test_split(\n" ++
    "    X, y, test_size=0.2, stratify=y, random_state=SEED\n)\nlog_event(\n    \"metric_update\",\n" ++
    "    \x7b\"metric\": \"dataset_samples\", \"value\": int(X.shape[0])\x7d,\n)"

def sklearnCode (metadata : DatasetMetadata) (plan : PlanDocumentV11) : String :=
    "# Dataset: " ++
    plan.dataset.name ++
    " (sklearn built-in - no download)\n" ++
    "log_event(\"stage_update\", \x7b\"stage\": \"dataset_load\", \"dataset\": \"" ++
    plan.dataset.name ++
    "\"\x7d)\n\n# Load dataset (bundled with sklearn)\nX, y = " ++
    metadata.load_function ++
    "(return_X_y=True)\n\n# Split train/test with deterministic seed\n" ++
    "X_train, X_test, y_train, y_test = train_test_split(\n" ++
    "    X, y, test_size=0.2, random_state=SEED\n)\n\n" ++
    "log_event(\"metric_update\", \x7b\"metric\": \"dataset_samples\", \"value\": int(X.shape[0])\x7d)"

def torchvisionCode (metadata : DatasetMetadata) (plan : PlanDocumentV11) : String :=
    "# Dataset: " ++
    plan.dataset.name ++
    " (Torchvision - cached download)\nCACHE_DIR = os.getenv(\"DATASET_CACHE_DIR\", \"./data\")\n" ++
    "OFFLINE_MODE = os.getenv(\"OFFLINE_MODE\", \"false\").lower() == \"true\"\n\n" ++
    "log_event(\"stage_update\", \x7b\"stage\": \"dataset_load\", \"dataset\": \"" ++
    plan.dataset.name ++
    "\"\x7d)\n\n# Basic transforms (normalize to [0, 1])\ntransform = transforms.Compose([\n" ++
    "    transforms.ToTensor(),\n])\n\n" ++
    "# Download=True checks cache first! Only downloads if missing.\ntrain_dataset = datasets." ++
    metadata.load_function ++
    "(\n    root=CACHE_DIR,\n    train=True,\n" ++
    "    download=not OFFLINE_MODE,  # Skip download if offline\n    transform=transform\n)\n\n" ++
    "test_dataset = datasets." ++
    metadata.load_function ++
    "(\n    root=CACHE_DIR,\n    train=False,\n    download=not OFFLINE_MODE,\n" ++
    "    transform=transform\n)\n\n" ++
    "# Convert to numpy and flatten for sklearn compatibility (Phase 2)\n" ++
    "X_train = train_dataset.data.numpy().reshape(len(train_dataset), -1)\n" ++
    "y_train = np.array(train_dataset.targets)\n\n" ++
    "X_test = test_dataset.data.numpy().reshape(len(test_dataset), -1)\n" ++
    "y_test = np.array(test_dataset.targets)\n\n# Subsample for CPU budget (20 min limit)\n" ++
    "MAX_SAMPLES = int(os.getenv(\"MAX_TRAIN_SAMPLES\", \"5000\"))\nif len(X_train) > MAX_SAMPLES:\n" ++
    "    indices = np.random.RandomState(SEED).choice(len(X_train), MAX_SAMPLES, replace=False)" ++
    "\n    X_train, y_train = X_train[indices], y_train[indices]\n\n" ++
    "log_event(\"metric_update\", \x7b\"metric\": \"dataset_samples\", \"value\": len(X_train)\x7d)"

def excelUploadedCodeBody (plan : PlanDocumentV11) (fname : String) : String :=
    "# Dataset: " ++
    plan.dataset.name ++
    " (Uploaded with paper - loaded from local file)\n" ++
    "log_event(\"stage_update\", \x7b\"stage\": \"dataset_load\", \"dataset\": \"" ++
    plan.dataset.name ++
    "\"\x7d)\n\n# Dataset file is in the same directory as this notebook\ndataset_path = \"" ++
    fname ++
    "\"\n" ++
    "if not os.path.exists(dataset_path):\n    " ++
    "raise FileNotFoundError(" ++
    "f\"Dataset not found at \x7bdataset_path\x7d. Expected file: " ++
    fname ++
    "\")\n\nlog_event(\"info\", \x7b\"message\": f\"Loading dataset from local file: \x7bdataset_path\x7d\"\x7d)\n\n" ++
    "# Load Excel file\ndf = pd.read_excel(dataset_path)\n\n" ++
    "log_event(\"metric_update\", \x7b\"metric\": \"dataset_rows\", \"value\": len(df)\x7d)\n\n" ++
    "# Clean data: Remove rows with missing values\ndf_clean = df.dropna()\n" ++
    "if len(df_clean) < len(df):\n    dropped = len(df) - len(df_clean)\n" ++
    "    log_event(\"info\", \x7b\"message\": f\"Dropped \x7bdropped\x7d rows with missing values (\x7bdropped/l" ++
    "en(df)*100:.1f\x7d%)\"\x7d)\ndf = df_clean\n\n# Detect target column (common names)\n" ++
    "target_column = None\n" ++
    "for col in [\"Win\", \"win\", \"target\", \"label\", \"class\", \"y\", \"Target\", \"Label\"]:\n" ++
    "    if col in df.columns:\n        target_column = col\n        break\n\n" ++
    "if target_column is None:\n    # Fall back to last column\n" ++
    "    target_column = df.columns[-1]\n" ++
    "    log_event(\"warning\", \x7b\"message\": f\"No standard target column found. Using last column:" ++
    " \x7btarget_column\x7d\"\x7d)\n\n# Separate features and target\ny = df[target_column].values\n" ++
    "X_df = df.drop(columns=[target_column])\n\n" ++
    "# Drop high-cardinality string columns (team names, competition names, etc.)\n" ++
    "# Keep only columns with reasonable cardinality (<50 unique values)\n" ++
    "for col in X_df.columns:\n    if X_df[col].dtype == \x27object\x27:  # String column\n" ++
    "        if X_df[col].nunique() > 50:\n            X_df = X_df.drop(columns=[col])\n" ++
    "            log_event(\"info\", \x7b\"message\": f\"Dropped high-cardinality column: \x7bcol\x7d\"\x7d)\n\n" ++
    "# Encode categorical features\nlabel_encoders = \x7b\x7d\nfor col in X_df.columns:\n" ++
    "    if X_df[col].dtype == \x27object\x27:  # String categorical\n        le = LabelEncoder()\n" ++
    "        X_df[col] = le.fit_transform(X_df[col].astype(str))\n" ++
    "        label_encoders[col] = le\n\n# Convert to numpy array\nX = X_df.values\n\n" ++
    "# Subsample for CPU budget (only if dataset is large)\n" ++
    "MAX_SAMPLES = int(os.getenv(\"MAX_TRAIN_SAMPLES\", \"5000\"))\nif len(X) > MAX_SAMPLES:\n" ++
    "    indices = np.random.RandomState(SEED).choice(len(X), MAX_SAMPLES, replace=False)\n" ++
    "    X, y = X[indices], y[indices]\n" ++
    "    log_event(\"info\", \x7b\"message\": f\"Subsampled \x7blen(X)\x7d → \x7bMAX_SAMPLES\x7d rows\"\x7d)\n\n" ++
    "# Split train/test\nX_train, X_test, y_train, y_test = train_test_split(\n" ++
    "    X, y, test_size=0.2, random_state=SEED\n)\n\n" ++
    "log_event(\"metric_update\", \x7b\"metric\": \"dataset_samples\", \"value\": len(X)\x7d)\n" ++
    "log_event(\"metric_update\", \x7b\"metric\": \"dataset_features\", \"value\": X.shape[1]\x7d)"

def excelRegistryCode (plan : PlanDocumentV11) : String :=
    "# Dataset: " ++
    plan.dataset.name ++
    " (Excel format - local registry)\n" ++
    "log_event(\"stage_update\", \x7b\"stage\": \"dataset_load\", \"dataset\": \"" ++
    plan.dataset.name ++
    "\"\x7d)\n\n# Load Excel file (supports .xls and .xlsx)\ndf = pd.read_excel(\"./" ++
    plan.dataset.name ++
    ".xls\")\n\nlog_event(\"metric_update\", \x7b\"metric\": \"dataset_rows\", \"value\": len(df)\x7d)\n\n" ++
    "# Detect target column (common names)\ntarget_column = None\n" ++
    "for col in [\"Win\", \"win\", \"target\", \"label\", \"class\", \"y\", \"Target\", \"Label\"]:\n" ++
    "    if col in df.columns:\n        target_column = col\n        break\n\n" ++
    "if target_column is None:\n    # Fall back to last column\n" ++
    "    target_column = df.columns[-1]\n" ++
    "    log_event(\"warning\", \x7b\"message\": f\"No standard target column found. Using last column:" ++
    " \x7btarget_column\x7d\"\x7d)\n\n# Separate features and target\ny = df[target_column].values\n" ++
    "X_df = df.drop(columns=[target_column])\n\n" ++
    "# Drop high-cardinality string columns (team names, competition names, etc.)\n" ++
    "# Keep only columns with reasonable cardinality (<50 unique values)\n" ++
    "for col in X_df.columns:\n    if X_df[col].dtype == \x27object\x27:  # String column\n" ++
    "        if X_df[col].nunique() > 50:\n            X_df = X_df.drop(columns=[col])\n" ++
    "            log_event(\"info\", \x7b\"message\": f\"Dropped high-cardinality column: \x7bcol\x7d\"\x7d)\n\n" ++
    "# Encode categorical features\nlabel_encoders = \x7b\x7d\nfor col in X_df.columns:\n" ++
    "    if X_df[col].dtype == \x27object\x27:  # String categorical\n        le = LabelEncoder()\n" ++
    "        X_df[col] = le.fit_transform(X_df[col].astype(str))\n" ++
    "        label_encoders[col] = le\n\n# Convert to numpy array\nX = X_df.values\n\n" ++
    "# Subsample for CPU budget (only if dataset is large)\n" ++
    "MAX_SAMPLES = int(os.getenv(\"MAX_TRAIN_SAMPLES\", \"5000\"))\nif len(X) > MAX_SAMPLES:\n" ++
    "    indices = np.random.RandomState(SEED).choice(len(X), MAX_SAMPLES, replace=False)\n" ++
    "    X, y = X[indices], y[indices]\n" ++
    "    log_event(\"info\", \x7b\"message\": f\"Subsampled \x7blen(X)\x7d → \x7bMAX_SAMPLES\x7d rows\"\x7d)\n\n" ++
    "# Split train/test\nX_train, X_test, y_train, y_test = train_test_split(\n" ++
    "    X, y, test_size=0.2, random_state=SEED\n)\n\n" ++
    "log_event(\"metric_update\", \x7b\"metric\": \"dataset_samples\", \"value\": len(X)\x7d)\n" ++
    "log_event(\"metric_update\", \x7b\"metric\": \"dataset_features\", \"value\": X.shape[1]\x7d)"

def huggingfaceCodeBody (hfPathStr split : String) (plan : PlanDocumentV11) : String :=
    "# Dataset: " ++
    plan.dataset.name ++
    " (HuggingFace - cached download)\n" ++
    "CACHE_DIR = os.getenv(\"DATASET_CACHE_DIR\", \"./data/cache\")\n" ++
    "OFFLINE_MODE = os.getenv(\"OFFLINE_MODE\", \"false\").lower() == \"true\"\n\n" ++
    "log_event(\"stage_update\", \x7b\"stage\": \"dataset_load\", \"dataset\": \"" ++
    plan.dataset.name ++
    "\"\x7d)\n\n# Load with caching (downloads only if not cached)\ndataset = load_dataset(\n    " ++
    hfPathStr ++
    ",\n    cache_dir=CACHE_DIR,\n" ++
    "    download_mode=\"reuse_dataset_if_exists\",  # Reuse cache if available\n)\n\n" ++
    "# Extract split\nsplit_name = \"" ++
    split ++
    "\" if \"" ++
    split ++
    "\" in dataset else \"train\"\ntrain_data = dataset[split_name]\n\n" ++
    "# Convert to sklearn-compatible format\n" ++
    "# Phase 2: Simple bag-of-words (Phase 3 will add real NLP models)\n\n" ++
    "# Detect text field (common field names)\ntext_field = None\n" ++
    "for field in [\"sentence\", \"text\", \"content\", \"review\"]:\n" ++
    "    if field in train_data.features:\n        text_field = field\n        break\n\n" ++
    "if text_field is None:\n" ++
    "    raise ValueError(f\"Could not find text field in dataset. Available fields: \x7blist(train" ++
    "_data.features.keys())\x7d\")\n\n# Extract texts and labels\n" ++
    "texts = [row[text_field] for row in train_data]\n\n# Detect label field\n" ++
    "label_field = \"label\" if \"label\" in train_data.features else list(train_data.features.keys" ++
    "())[1]\nlabels = [row[label_field] for row in train_data]\n\n" ++
    "# Vectorize text (bag-of-words for sklearn compatibility)\n" ++
    "MAX_FEATURES = int(os.getenv(\"MAX_BOW_FEATURES\", \"1000\"))\n" ++
    "vectorizer = CountVectorizer(max_features=MAX_FEATURES)\n" ++
    "X = vectorizer.fit_transform(texts).toarray()\ny = np.array(labels)\n\n" ++
    "# Subsample for CPU budget\nMAX_SAMPLES = int(os.getenv(\"MAX_TRAIN_SAMPLES\", \"5000\"))\n" ++
    "if len(X) > MAX_SAMPLES:\n" ++
    "    indices = np.random.RandomState(SEED).choice(len(X), MAX_SAMPLES, replace=False)\n" ++
    "    X, y = X[indices], y[indices]\n\n# Split train/test\n" ++
    "X_train, X_test, y_train, y_test = train_test_split(\n" ++
    "    X, y, test_size=0.2, random_state=SEED\n)\n\n" ++
    "log_event(\"metric_update\", \x7b\"metric\": \"dataset_samples\", \"value\": len(X)\x7d)"

def introText (plan_id : String) : String :=
    "# Plan " ++
    plan_id ++
    "\n\nThis notebook was generated automatically from Plan JSON v1.1.\n" ++
    "It follows the declared dataset, model, and configuration using a\n" ++
    "deterministic CPU-only workflow."

def setupCode (plan : PlanDocumentV11) (plan_id : String) : String :=
    "import json\nimport os\nimport random\nimport sys\nfrom pathlib import Path\n\n" ++
    "import numpy as np\n\ntry:\n    import torch\n    TORCH_AVAILABLE = True\nexcept ImportError:\n" ++
    "    TORCH_AVAILABLE = False\n\nEVENTS_PATH = Path(\"events.jsonl\")\n" ++
    "METRICS_PATH = Path(\"metrics.json\")\n\nif EVENTS_PATH.exists():\n    EVENTS_PATH.unlink()\n" ++
    "if METRICS_PATH.exists():\n    METRICS_PATH.unlink()\n\n" ++
    "def log_event(event_type: str, payload: dict) -> None:\n" ++
    "    EVENTS_PATH.parent.mkdir(parents=True, exist_ok=True)\n" ++
    "    with EVENTS_PATH.open(\"a\", encoding=\"utf-8\") as stream:\n" ++
    "        stream.write(json.dumps(\x7b\"event\": event_type, **payload\x7d) + \"\\n\")\n\n" ++
    "def seed_everything(seed: int) -> None:\n    random.seed(seed)\n    np.random.seed(seed)\n" ++
    "    if TORCH_AVAILABLE:\n        torch.manual_seed(seed)\n" ++
    "        if torch.cuda.is_available():\n" ++
    "            raise RuntimeError(\"E_GPU_REQUESTED: CUDA devices are not permitted during run" ++
    "s\")\n        torch.backends.cudnn.deterministic = True\n" ++
    "        torch.backends.cudnn.benchmark = False\n\n" ++
    "SEED = " ++
    toString plan.config.seed ++
    "\nseed_everything(SEED)\nlog_event(\"stage_update\", \x7b\"stage\": \"seed_check\", \"seed\": SEED\x7d)\n" ++
    "print(\"Notebook generated for Plan " ++
    plan_id ++
    "\")\nprint(\"Python version:\", sys.version)\nprint(\"Seed set to\", SEED)\nif TORCH_AVAILABLE:\n" ++
    "    print(\"Torch version:\", torch.__version__)\nelse:\n" ++
    "    print(\"Torch not installed (not required for this plan)\")"

/-- The `", ".join(f'"p"' for p in hf_path)` interpolation of the HuggingFace
generator. -/
def hfQuotedPath (metadata : DatasetMetadata) : String :=
  String.intercalate ", " (metadata.hf_path.map (fun p => "\"" ++ p ++ "\""))

/-- `HuggingFaceDatasetGenerator.generate_code`: `split = plan.dataset.split
or "train"` (Python `or`: the empty string is falsy). -/
def huggingfaceCode (metadata : DatasetMetadata) (plan : PlanDocumentV11) : String :=
  huggingfaceCodeBody (hfQuotedPath metadata)
    (if plan.dataset.split = "" then "train" else plan.dataset.split) plan

/-- `ExcelDatasetGenerator._generate_uploaded_dataset_code`: the filename is
`self.paper.dataset_original_filename if self.paper else "dataset.xls"`
(a `None` filename is rendered by the f-string as `"None"`). -/
def excelUploadedCode (plan : PlanDocumentV11) (paper : Option PaperRecord) : String :=
  excelUploadedCodeBody plan
    (match paper with
     | some p => pyStrOpt p.dataset_original_filename
     | none => "dataset.xls")

/-- `ExcelDatasetGenerator.generate_code`: route to the uploaded-dataset body
when `self.paper and self.paper.dataset_storage_path` is truthy, else the
local-registry body. -/
def excelCode (paper : Option PaperRecord) (plan : PlanDocumentV11) : String :=
  match paper with
  | some p =>
    if pyTruthy p.dataset_storage_path then excelUploadedCode plan (some p)
    else excelRegistryCode plan
  | none => excelRegistryCode plan

/-- The dataset generator selected by the factory, as a closed set of
variants (spec §9 models the dynamic dispatch of `dataset.py` this way). -/
inductive DatasetGen where
  | synthetic : DatasetGen
  | sklearnGen : DatasetMetadata → DatasetGen
  | torchvisionGen : DatasetMetadata → DatasetGen
  | huggingfaceGen : DatasetMetadata → DatasetGen
  | excelGen : DatasetMetadata → Option PaperRecord → DatasetGen
deriving DecidableEq, Repr

/-- `generate_imports` of each dataset generator class in `dataset.py`. -/
def generateDatasetImports : DatasetGen → PlanDocumentV11 → List String
  | .synthetic, _ =>
    ["from sklearn.datasets import make_classification",
     "from sklearn.model_selection import train_test_split"]
  | .sklearnGen metadata, _ =>
    ["from sklearn.datasets import " ++ metadata.load_function,
     "from sklearn.model_selection import train_test_split"]
  | .torchvisionGen _, _ =>
    ["from torchvision import datasets, transforms",
     "import numpy as np",
     "import os"]
  | .huggingfaceGen _, _ =>
    ["from datasets import load_dataset",
     "from sklearn.feature_extraction.text import CountVectorizer",
     "from sklearn.model_selection import train_test_split",
     "import os"]
  | .excelGen _ _, _ =>
    ["import pandas as pd",
     "from sklearn.preprocessing import LabelEncoder",
     "from sklearn.model_selection import train_test_split",
     "import os"]

/-- `generate_code` of each dataset generator class in `dataset.py`. -/
def generateDatasetCode : DatasetGen → PlanDocumentV11 → String
  | .synthetic, plan => syntheticCode plan
  | .sklearnGen metadata, plan => sklearnCode metadata plan
  | .torchvisionGen metadata, plan => torchvisionCode metadata plan
  | .huggingfaceGen metadata, plan => huggingfaceCode metadata plan
  | .excelGen _ paper, plan => excelCode paper plan

/-- `generate_requirements` of each dataset generator class in `dataset.py`. -/
def generateDatasetRequirements : DatasetGen → PlanDocumentV11 → List String
  | .synthetic, _ => ["scikit-learn==1.5.1"]
  | .sklearnGen _, _ => ["scikit-learn==1.5.1"]
  | .torchvisionGen _, _ => ["torch==2.1.0", "torchvision==0.16.0"]
  | .huggingfaceGen _, _ => ["datasets>=2.14.0", "scikit-learn==1.5.1"]
  | .excelGen _ _, _ =>
    ["pandas==2.2.2", "xlrd>=2.0.1", "openpyxl>=3.1.0", "scikit-learn==1.5.1"]

/-- The model generator family; `factory.py` always selects the logistic
baseline (Phase 1). -/
inductive ModelGen where
  | sklearnLogistic : ModelGen
deriving DecidableEq, Repr

/-- Modelled from the spec: `model.py` (`SklearnLogisticGenerator`) is not in
the source tree.  Spec §4.2/§4.4 requires a fixed baseline linear-classifier
training/evaluation cell seeded from the injected `SEED`. -/
def sklearnLogisticCode : String :=
  "log_event(\"stage_update\", \x7b\"stage\": \"train_model\", \"model\": \"logistic_regression\"\x7d)\n" ++
  "model = LogisticRegression(max_iter=1000, random_state=SEED)\n" ++
  "model.fit(X_train, y_train)\npredictions = model.predict(X_test)\n" ++
  "accuracy = accuracy_score(y_test, predictions)\n" ++
  "log_event(\"metric_update\", \x7b\"metric\": \"accuracy\", \"value\": float(accuracy)\x7d)"

/-- Modelled from the spec: imports of the absent model generator. -/
def generateModelImports : ModelGen → PlanDocumentV11 → List String
  | .sklearnLogistic, _ =>
    ["from sklearn.linear_model import LogisticRegression",
     "from sklearn.metrics import accuracy_score"]

/-- Modelled from the spec: code body of the absent model generator. -/
def generateModelCode : ModelGen → PlanDocumentV11 → String
  | .sklearnLogistic, _ => sklearnLogisticCode

/-- Modelled from the spec: requirements of the absent model generator (§8
requires the manifest to contain a scikit-learn pin). -/
def generateModelRequirements : ModelGen → PlanDocumentV11 → List String
  | .sklearnLogistic, _ => ["scikit-learn==1.5.1"]

/-- The ad-hoc metadata `factory.py` constructs for an uploaded dataset. -/
def uploadedMetadata : DatasetMetadata :=
  ⟨.EXCEL, "read_excel", 1, "user-provided", []⟩

/-- The factory's Phase A.5 guard `if paper and paper.dataset_storage_path`. -/
def paperHasUpload : Option PaperRecord → Bool
  | none => false
  | some p => pyTruthy p.dataset_storage_path

/-- A declared source the factory's dispatch recognizes. -/
def recognizedSource : DatasetSource → Bool
  | .OTHER _ => false
  | _ => true

/-- The per-source dispatch of `get_dataset_generator` on a registry hit
(`factory.py` lines 122–159): one generator per recognized source, synthetic
fallback in the final `else` for an unrecognized source. -/
def dispatchRegistryHit (metadata : DatasetMetadata) (paper : Option PaperRecord) : DatasetGen :=
  match metadata.source with
  | .SKLEARN => .sklearnGen metadata
  | .TORCHVISION => .torchvisionGen metadata
  | .HUGGINGFACE => .huggingfaceGen metadata
  | .EXCEL => .excelGen metadata paper
  | .OTHER _ => .synthetic

/-- `GeneratorFactory.get_dataset_generator` of `factory.py`: uploaded-file
override first, then registry lookup, then per-source dispatch, with the
synthetic generator as fallback for a registry miss or unknown source.
Total by construction: every input yields a generator, none raises. -/
def get_dataset_generator (plan : PlanDocumentV11) (paper : Option PaperRecord) : DatasetGen :=
  if paperHasUpload paper then .excelGen uploadedMetadata paper
  else
    match lookup_dataset plan.dataset.name with
    | none => .synthetic
    | some metadata => dispatchRegistryHit metadata paper

/-- `GeneratorFactory.get_model_generator`: always the logistic baseline. -/
def get_model_generator (_plan : PlanDocumentV11) : ModelGen := .sklearnLogistic

/-- `DEFAULT_REQUIREMENTS` of `notebook.py`. -/
def DEFAULT_REQUIREMENTS : List String :=
  ["numpy==1.26.4",
   "scikit-learn==1.5.1",
   "pandas==2.2.2",
   "matplotlib==3.9.0",
   "jupyter==1.1.1"]

/-- The requirements builder of `notebook.py`, generalized over the two
generator requirement lists it unions with the base set.  Mirrors
`requirements = set(DEFAULT_REQUIREMENTS); requirements.update(dataset_reqs);
requirements.update(model_reqs); sorted_lines = sorted(requirements)`. -/
def buildRequirementsFrom (dataset_reqs model_reqs : List String) : String × String :=
  let sorted_lines := pySortedSet (DEFAULT_REQUIREMENTS ++ dataset_reqs ++ model_reqs)
  (String.intercalate "\n" sorted_lines ++ "\n",
   sha256hex (String.intercalate "\n" sorted_lines))

/-- `build_requirements` of `notebook.py`.  Note it selects the dataset
generator from the plan alone (`GeneratorFactory.get_dataset_generator(plan)`
with no `paper` argument). -/
def build_requirements (plan : PlanDocumentV11) : String × String :=
  buildRequirementsFrom
    (generateDatasetRequirements (get_dataset_generator plan none) plan)
    (generateModelRequirements (get_model_generator plan) plan)

/-- A notebook cell: markdown or code, carrying the nbformat cell id and the
source text. -/
inductive NbCell where
  | markdown : String → String → NbCell
  | code : String → String → NbCell
deriving DecidableEq, Repr

/-- The notebook document: the ordered cell list (the fixed kernelspec
metadata of `notebook.py` is a constant of the serialization below). -/
structure Notebook where
  cells : List NbCell
deriving DecidableEq, Repr

/-- The merged-imports cell source of `build_notebook_bytes`:
`sorted(set(dataset_imports + model_imports))`, joined by newlines, with the
placeholder comment when empty. -/
def importsCellSource (plan : PlanDocumentV11) (paper : Option PaperRecord) : String :=
  let all_imports := pySortedSet
    (generateDatasetImports (get_dataset_generator plan paper) plan ++
      generateModelImports (get_model_generator plan) plan)
  if all_imports.isEmpty then "# No additional imports needed"
  else String.intercalate "\n" all_imports

/-- The cell structure `build_notebook_bytes` assembles: intro markdown,
setup, merged imports, dataset code, model code — in that order.  `ids` is
the stream of random cell ids drawn by nbformat's `new_markdown_cell` /
`new_code_cell` (nbformat ≥ 5.1 assigns each new cell a fresh
`uuid`-derived id). -/
def build_notebook (plan : PlanDocumentV11) (plan_id : String)
    (paper : Option PaperRecord) (ids : Nat → String) : Notebook :=
  { cells :=
      [.markdown (ids 0) (introText plan_id),
       .code (ids 1) (setupCode plan plan_id),
       .code (ids 2) (importsCellSource plan paper),
       .code (ids 3) (generateDatasetCode (get_dataset_generator plan paper) plan),
       .code (ids 4) (generateModelCode (get_model_generator plan) plan)] }

/-- JSON escaping of one character (the escapes `json.dumps` emits for the
characters occurring in generated notebooks). -/
def jsonEscapeChar (c : Char) : List Char :=
  if c = Char.ofNat 34 then [Char.ofNat 92, Char.ofNat 34]
  else if c = Char.ofNat 92 then [Char.ofNat 92, Char.ofNat 92]
  else if c = Char.ofNat 10 then [Char.ofNat 92, 'n']
  else if c = Char.ofNat 13 then [Char.ofNat 92, 'r']
  else if c = Char.ofNat 9 then [Char.ofNat 92, 't']
  else [c]

def jsonEscape (s : String) : String := String.mk (s.data.flatMap jsonEscapeChar)

def jsonStr (s : String) : String := "\"" ++ jsonEscape s ++ "\""

/-- Serialization of one cell, modelling the JSON object `nbformat.writes`
emits for it (nbformat ≥ 5.1 includes the `id` field). -/
def serializeCell : NbCell → String
  | .markdown cid src =>
    "\x7b\"cell_type\": \"markdown\", \"id\": " ++ jsonStr cid ++
      ", \"metadata\": \x7b\x7d, \"source\": " ++ jsonStr src ++ "\x7d"
  | .code cid src =>
    "\x7b\"cell_type\": \"code\", \"execution_count\": null, \"id\": " ++ jsonStr cid ++
      ", \"metadata\": \x7b\x7d, \"outputs\": [], \"source\": " ++ jsonStr src ++ "\x7d"

/-- Comma-joined serialization of the cell list. -/
def serializeCells : List NbCell → String
  | [] => ""
  | c :: rest =>
    serializeCell c ++ (if rest.isEmpty then "" else ", ") ++ serializeCells rest

/-- Serialization of the notebook document, modelling `nbformat.writes`
(UTF-8 JSON text with the fixed kernel metadata of `notebook.py`). -/
def serializeNotebook (nb : Notebook) : String :=
  "\x7b\"cells\": [" ++ serializeCells nb.cells ++
    "], \"metadata\": \x7b\"kernelspec\": \x7b\"display_name\": \"Python 3\", \"name\": \"python3\"\x7d, " ++
    "\"language_info\": \x7b\"name\": \"python\"\x7d\x7d, \"nbformat\": 4, \"nbformat_minor\": 5\x7d"

/-- `build_notebook_bytes` of `notebook.py`: assemble the five cells and
serialize.  The result models the UTF-8 JSON text returned (byte content =
UTF-8 encoding of this string, which is injective). -/
def build_notebook_bytes (plan : PlanDocumentV11) (plan_id : String)
    (paper : Option PaperRecord) (ids : Nat → String) : String :=
  serializeNotebook (build_notebook plan plan_id paper ids)

/-- `ValidationResult` of `validation.py`. -/
structure ValidationResult where
  valid : Bool
  errors : List String
deriving DecidableEq, Repr

/-- `SKLEARN_PARAM_RULES` of `validation.py`: construct name, forbidden
parameters, reason — in the dict's insertion order. -/
def SKLEARN_PARAM_RULES : List (String × List String × String) :=
  [("CountVectorizer", ["random_state"],
    "CountVectorizer is deterministic and does not accept random_state"),
   ("TfidfVectorizer", ["random_state"],
    "TfidfVectorizer is deterministic and does not accept random_state"),
   ("HashingVectorizer", ["random_state"],
    "HashingVectorizer is deterministic and does not accept random_state")]

/-- Python `\s` for the whitespace occurring in generated cells. -/
def isPySpace (c : Char) : Bool :=
  c = ' ' || c = Char.ofNat 9 || c = Char.ofNat 10 ||
    c = Char.ofNat 13 || c = Char.ofNat 11 || c = Char.ofNat 12

/-- Substring containment, modelling Python's `in` on `str`. -/
def containsSub (pat l : List Char) : Bool :=
  (List.range (l.length + 1)).any (fun i => pat.isPrefixOf (l.drop i))

/-- Does `l` start with `param`, then `\s*`, then `=`?  (The tail of the
validator's regex `{class}\s*\([^)]*{param}\s*=`.) -/
def startsWithParamEq (param l : List Char) : Bool :=
  param.isPrefixOf l &&
    (match (l.drop param.length).dropWhile isPySpace with
     | c :: _ => c = '='
     | [] => false)

/-- After the opening parenthesis: `[^)]*{param}\s*=` somewhere before any
closing parenthesis. -/
def matchAfterParen (param l : List Char) : Bool :=
  (List.range (l.length + 1)).any (fun j =>
    ((l.take j).all (fun c => c ≠ ')')) && startsWithParamEq param (l.drop j))

/-- `re.search(rf'{class_name}\s*\([^)]*{param}\s*=', source)` of
`_check_sklearn_params`, as a decidable existence check over positions. -/
def matchClassParam (cls param l : List Char) : Bool :=
  (List.range (l.length + 1)).any (fun i =>
    cls.isPrefixOf (l.drop i) &&
      (match ((l.drop i).drop cls.length).dropWhile isPySpace with
       | c :: tail => c = '(' && matchAfterParen param tail
       | [] => false))

/-- The error message appended by `_check_sklearn_params`. -/
def paramErrMsg (i : Nat) (cls param reason : String) : String :=
  ("Cell " ++ toString i ++ ": ") ++
    (cls ++ " uses invalid parameter \x27" ++ param ++ "\x27. Reason: " ++ reason)

/-- The errors `_check_sklearn_params` collects for one code cell at index
`i`: per rule, skip when the construct name is absent (`not in`), else append
one message per forbidden parameter whose regex matches. -/
def cellSklearnErrors (i : Nat) (src : String) : List String :=
  SKLEARN_PARAM_RULES.flatMap (fun rule =>
    if containsSub rule.1.data src.data then
      rule.2.1.flatMap (fun param =>
        if matchClassParam rule.1.data param.data src.data then
          [paramErrMsg i rule.1 param rule.2.2]
        else [])
    else [])

/-- `_check_sklearn_params` over the whole notebook (markdown cells are
skipped). -/
def checkSklearnParams (nb : Notebook) : List String :=
  nb.cells.enum.flatMap (fun p =>
    match p.2 with
    | .code _ src => cellSklearnErrors p.1 src
    | .markdown _ _ => [])

/-- Outcome of CPython's `compile(source, ..., "exec")` on one cell, the
external primitive `_check_syntax` calls: success, a `SyntaxError` carrying
line number and message, or another exception.  Modelled as an oracle
argument since the Python bytecode compiler is outside this repository. -/
inductive CompileOutcome where
  | ok : CompileOutcome
  | syntaxError : Nat → String → CompileOutcome
  | otherError : String → CompileOutcome
deriving DecidableEq, Repr

/-- The message `_check_syntax` appends for a `SyntaxError`. -/
def syntaxErrMsg (i lineno : Nat) (msg : String) : String :=
  "Syntax error in " ++ ("cell " ++ toString i) ++
    (" at line " ++ toString lineno ++ ": " ++ msg)

/-- The message `_check_syntax` appends for any other compile exception. -/
def compileErrMsg (i : Nat) (msg : String) : String :=
  ("Compilation error in cell " ++ toString i ++ ": ") ++ msg

/-- The contribution of one cell to `_check_syntax`: at most one message,
and only for code cells. -/
def cellSyntaxErrors (compileFn : String → CompileOutcome) (i : Nat) : NbCell → List String
  | .markdown _ _ => []
  | .code _ src =>
    match compileFn src with
    | .ok => []
    | .syntaxError lineno msg => [syntaxErrMsg i lineno msg]
    | .otherError msg => [compileErrMsg i msg]

/-- `_check_syntax` over the whole notebook: every code cell is compiled in
isolation and all failures are collected (no abort on first failure). -/
def checkSyntaxErrors (compileFn : String → CompileOutcome) (nb : Notebook) : List String :=
  nb.cells.enum.flatMap (fun p => cellSyntaxErrors compileFn p.1 p.2)

/-- `NotebookValidator.validate` on a parsed notebook: concatenate the two
checks' errors; `valid = (len(errors) == 0)`. -/
def validateNotebook (compileFn : String → CompileOutcome) (nb : Notebook) : ValidationResult :=
  let errors := checkSyntaxErrors compileFn nb ++ checkSklearnParams nb
  ⟨errors.isEmpty, errors⟩

/-- Substring containment at the specification level: `pat` occurs
contiguously inside `s`. -/
def containsStr (pat s : String) : Prop := ∃ a b, s = a ++ pat ++ b

theorem containsStr_self (p : String) : containsStr p p :=
  ⟨"", "", by simp⟩

theorem containsStr_appendL {p t : String} (s : String) (h : containsStr p t) :
    containsStr p (s ++ t) := by
  obtain ⟨a, b, rfl⟩ := h
  exact ⟨s ++ a, b, by simp [String.append_assoc]⟩

theorem containsStr_appendR {p s : String} (t : String) (h : containsStr p s) :
    containsStr p (s ++ t) := by
  obtain ⟨a, b, rfl⟩ := h
  exact ⟨a, b ++ t, by simp [String.append_assoc]⟩

theorem map_self_of_fix {l : List Char} {f : Char → Char} (h : ∀ c ∈ l, f c = c) :
    l.map f = l := by
  induction l with
  | nil => rfl
  | cons a t ih =>
    simp only [List.map_cons]
    rw [h a (by simp), ih (fun c hc => h c (by simp [hc]))]

theorem toLowerChar_of_kept {c : Char} (h : isKeptChar c = true) : toLowerChar c = c := by
  unfold toLowerChar
  rw [if_neg]
  simp only [isKeptChar, Bool.or_eq_true, Bool.and_eq_true, decide_eq_true_iff] at h
  omega

theorem kept_ne_apos {c : Char} (h : isKeptChar c = true) : c ≠ aposChar := by
  intro he
  rw [he] at h
  have : isKeptChar aposChar = false := by decide
  rw [this] at h
  exact Bool.false_ne_true h

theorem removePossessive_of_no_apos {l : List Char} (h : ∀ c ∈ l, c ≠ aposChar) :
    removePossessive l = l := by
  induction l using removePossessive.induct with
  | case1 => rfl
  | case2 c => rfl
  | case3 c c2 rest hcond ih =>
    exact absurd hcond.1 (h c (by simp))
  | case4 c c2 rest hcond ih =>
    rw [removePossessive, if_neg hcond, ih (fun x hx => h x (by simp [hx]))]

theorem normalizeChars_idempotent (l : List Char) :
    normalizeChars (normalizeChars l) = normalizeChars l := by
  have hmem : ∀ c ∈ normalizeChars l, isKeptChar c = true := by
    intro c hc
    exact List.of_mem_filter hc
  have h1 : (normalizeChars l).map toLowerChar = normalizeChars l :=
    map_self_of_fix (fun c hc => toLowerChar_of_kept (hmem c hc))
  have h2 : removePossessive (normalizeChars l) = normalizeChars l :=
    removePossessive_of_no_apos (fun c hc => kept_ne_apos (hmem c hc))
  have h3 : (normalizeChars l).filter isKeptChar = normalizeChars l :=
    List.filter_eq_self.mpr hmem
  calc normalizeChars (normalizeChars l)
      = (removePossessive ((normalizeChars l).map toLowerChar)).filter isKeptChar := rfl
    _ = (removePossessive (normalizeChars l)).filter isKeptChar := by rw [h1]
    _ = (normalizeChars l).filter isKeptChar := by rw [h2]
    _ = normalizeChars l := h3

/-- C8 — dataset-name normalization is idempotent on every string, and the
four AG-News spellings all normalize to the key `"agnews"` and resolve via
`lookup_dataset` to the same registry entry. -/
theorem c8_normalize_idempotent_agnews_aliases :
    (∀ s : String, normalize_dataset_name (normalize_dataset_name s) = normalize_dataset_name s) ∧
    (normalize_dataset_name "AG News" = "agnews" ∧
     normalize_dataset_name "agnews" = "agnews" ∧
     normalize_dataset_name "ag_news" = "agnews" ∧
     normalize_dataset_name "AG\x27s News" = "agnews") ∧
    (lookup_dataset "AG News" = some ⟨.HUGGINGFACE, "load_dataset", 20, "unspecified", ["ag_news"]⟩ ∧
     lookup_dataset "agnews" = lookup_dataset "AG News" ∧
     lookup_dataset "ag_news" = lookup_dataset "AG News" ∧
     lookup_dataset "AG\x27s News" = lookup_dataset "AG News") := by
  refine ⟨fun s => ?_, by decide, by decide⟩
  show String.mk (normalizeChars (normalizeChars s.data)) = String.mk (normalizeChars s.data)
  exact congrArg String.mk (normalizeChars_idempotent s.data)

/-- A sample plan whose dataset name hits the registry with a non-Excel
source (`"SST-2"` resolves to the HuggingFace entry). -/
def planSST2 : PlanDocumentV11 :=
  ⟨⟨"SST-2", "train", none⟩, ⟨"logistic"⟩, ⟨42, "sklearn", 20⟩, [⟨"accuracy"⟩]⟩

/-- A sample plan whose dataset name misses the registry. -/
def planUnknown : PlanDocumentV11 :=
  ⟨⟨"totally_unknown_xyz", "train", none⟩, ⟨"logistic"⟩, ⟨7, "sklearn", 20⟩, [⟨"accuracy"⟩]⟩

/-- A sample paper record with a staged uploaded dataset. -/
def paperUpload : PaperRecord :=
  ⟨"paper-1", some "papers/ab/dataset.xls", some "excel", some "penalties.xls"⟩

/-- C3 — whenever the paper carries a (truthy) staged upload path, the
factory returns the Excel/upload generator bound to that paper, regardless
of the plan's dataset name and in particular regardless of any registry
entry it matches. -/
theorem c3_upload_overrides_registry (plan : PlanDocumentV11) (p : PaperRecord)
    (s : String) (hpath : p.dataset_storage_path = some s) (hne : s ≠ "") :
    get_dataset_generator plan (some p) = .excelGen uploadedMetadata (some p) := by
  unfold get_dataset_generator
  rw [if_pos]
  show paperHasUpload (some p) = true
  simp only [paperHasUpload, pyTruthy, hpath, Bool.not_eq_true']
  exact (Bool.not_eq_true _).mp (fun hemp => hne ((String.isEmpty_iff s).mp hemp))

theorem c3_upload_overrides_registry_witness :
    paperUpload.dataset_storage_path = some "papers/ab/dataset.xls" ∧
    ("papers/ab/dataset.xls" : String) ≠ "" ∧
    (∃ md, lookup_dataset planSST2.dataset.name = some md ∧ md.source = .HUGGINGFACE) ∧
    get_dataset_generator planSST2 (some paperUpload) =
      .excelGen uploadedMetadata (some paperUpload) :=
  ⟨rfl, by decide, by decide,
   c3_upload_overrides_registry planSST2 paperUpload "papers/ab/dataset.xls" rfl (by decide)⟩

/-- C4 — a registry miss selects the synthetic generator, and a registry hit
whose declared source is unrecognized also dispatches to the synthetic
generator; the factory is total (returns a generator on every input, never
raises). -/
theorem c4_registry_miss_and_unknown_source_fallback (plan : PlanDocumentV11) :
    (lookup_dataset plan.dataset.name = none → get_dataset_generator plan none = .synthetic) ∧
    (∀ md, lookup_dataset plan.dataset.name = some md →
      get_dataset_generator plan none = dispatchRegistryHit md none) ∧
    (∀ md paper, recognizedSource md.source = false →
      dispatchRegistryHit md paper = .synthetic) := by
  refine ⟨fun h => ?_, fun md hmd => ?_, fun md paper hsrc => ?_⟩
  · unfold get_dataset_generator
    rw [if_neg (by simp [paperHasUpload]), h]
  · unfold get_dataset_generator
    rw [if_neg (by simp [paperHasUpload]), hmd]
  · rcases md with ⟨src, lf, sz, lic, hf⟩
    cases src <;> simp_all [recognizedSource, dispatchRegistryHit]

theorem c4_registry_miss_and_unknown_source_fallback_witness :
    lookup_dataset planUnknown.dataset.name = none ∧
    get_dataset_generator planUnknown none = .synthetic ∧
    recognizedSource (DatasetSource.OTHER "proprietary") = false ∧
    dispatchRegistryHit ⟨.OTHER "proprietary", "load_custom", 1, "unknown", []⟩ none = .synthetic :=
  ⟨by decide,
   (c4_registry_miss_and_unknown_source_fallback planUnknown).1 (by decide),
   by decide,
   (c4_registry_miss_and_unknown_source_fallback planUnknown).2.2
     ⟨.OTHER "proprietary", "load_custom", 1, "unknown", []⟩ none (by decide)⟩

/-- The sorted, deduplicated dependency lines `build_requirements` derives
from a plan. -/
def planManifestLines (plan : PlanDocumentV11) : List String :=
  pySortedSet (DEFAULT_REQUIREMENTS ++
    generateDatasetRequirements (get_dataset_generator plan none) plan ++
    generateModelRequirements (get_model_generator plan) plan)

/-- C1 — `build_requirements` is deterministic (two calls on the identical
plan give the identical pair, by purity of the embedding), invariant under
any reordering of the two generator requirement lists before the union, and
canonical: the manifest is the newline-join of the sorted, deduplicated
dependency set with exactly one trailing newline, and the env hash is the
SHA-256 hex digest of that same sorted list (so it is a function of the
dependency set alone). -/
theorem c1_build_requirements_deterministic_canonical (plan : PlanDocumentV11)
    (d m : List String)
    (hd : d.Perm (generateDatasetRequirements (get_dataset_generator plan none) plan))
    (hm : m.Perm (generateModelRequirements (get_model_generator plan) plan)) :
    build_requirements plan = build_requirements plan ∧
    buildRequirementsFrom d m = build_requirements plan ∧
    build_requirements plan =
      (String.intercalate "\n" (planManifestLines plan) ++ "\n",
       sha256hex (String.intercalate "\n" (planManifestLines plan))) ∧
    List.Sorted (fun a b => strLe a b = true) (planManifestLines plan) ∧
    (planManifestLines plan).Nodup ∧
    (∀ x, x ∈ planManifestLines plan ↔
      x ∈ DEFAULT_REQUIREMENTS ∨
      x ∈ generateDatasetRequirements (get_dataset_generator plan none) plan ∨
      x ∈ generateModelRequirements (get_model_generator plan) plan) := by
  refine ⟨rfl, ?_, rfl, pySortedSet_sorted _, pySortedSet_nodup _, fun x => ?_⟩
  · have hperm :
        (DEFAULT_REQUIREMENTS ++ d ++ m).Perm
          (DEFAULT_REQUIREMENTS ++
            generateDatasetRequirements (get_dataset_generator plan none) plan ++
            generateModelRequirements (get_model_generator plan) plan) :=
      ((List.Perm.refl DEFAULT_REQUIREMENTS).append hd).append hm
    show buildRequirementsFrom d m = buildRequirementsFrom _ _
    unfold buildRequirementsFrom
    rw [pySortedSet_perm_invariant hperm]
  · rw [planManifestLines, mem_pySortedSet]
    simp [List.mem_append, or_assoc]

theorem c1_build_requirements_deterministic_canonical_witness :
    (["scikit-learn==1.5.1", "datasets>=2.14.0"] : List String).Perm
      (generateDatasetRequirements (get_dataset_generator planSST2 none) planSST2) ∧
    (["scikit-learn==1.5.1"] : List String).Perm
      (generateModelRequirements (get_model_generator planSST2) planSST2) ∧
    buildRequirementsFrom ["scikit-learn==1.5.1", "datasets>=2.14.0"] ["scikit-learn==1.5.1"] =
      build_requirements planSST2 :=
  ⟨by decide, by decide,
   (c1_build_requirements_deterministic_canonical planSST2
     ["scikit-learn==1.5.1", "datasets>=2.14.0"] ["scikit-learn==1.5.1"]
     (by decide) (by decide)).2.1⟩

theorem pyTruthy_some {s : String} (hne : s ≠ "") : pyTruthy (some s) = true := by
  simp only [pyTruthy, Bool.not_eq_true']
  exact (Bool.not_eq_true _).mp (fun hemp => hne ((String.isEmpty_iff s).mp hemp))

theorem containsStr_tail2 (a x y : String) : containsStr (x ++ y) ((a ++ x) ++ y) :=
  ⟨a, "", by simp [String.append_assoc]⟩

/-- The factory's upload override, as a reusable lemma: a truthy
`dataset_storage_path` selects the Excel/upload generator. -/
theorem factory_upload_override (plan : PlanDocumentV11) (p : PaperRecord)
    {s : String} (hpath : p.dataset_storage_path = some s) (hne : s ≠ "") :
    get_dataset_generator plan (some p) = .excelGen uploadedMetadata (some p) := by
  unfold get_dataset_generator
  rw [if_pos]
  show pyTruthy p.dataset_storage_path = true
  rw [hpath]
  exact pyTruthy_some hne

/-- The Excel generator's routing to the uploaded-dataset body under a
truthy storage path. -/
theorem excelCode_uploaded (plan : PlanDocumentV11) (p : PaperRecord)
    {s : String} (hpath : p.dataset_storage_path = some s) (hne : s ≠ "") :
    excelCode (some p) plan = excelUploadedCode plan (some p) := by
  have ht : pyTruthy p.dataset_storage_path = true := by
    rw [hpath]
    exact pyTruthy_some hne
  simp [excelCode, ht]

/-- The generated uploaded-dataset cell always embeds the runtime existence
check: generation never touches the disk, the guard runs when the notebook
executes. -/
theorem excelUploadedCode_contains_guard (plan : PlanDocumentV11) (paper : Option PaperRecord) :
    containsStr "if not os.path.exists(dataset_path):\n    " (excelUploadedCode plan paper) ∧
    containsStr "raise FileNotFoundError(" (excelUploadedCode plan paper) := by
  unfold excelUploadedCode excelUploadedCodeBody
  constructor
  · repeat
      first
      | exact containsStr_appendL _ (containsStr_self _)
      | apply containsStr_appendR
  · repeat
      first
      | exact containsStr_appendL _ (containsStr_self _)
      | apply containsStr_appendR

/-- C5 (amended) — when a paper claims a staged uploaded dataset, the
selected generator emits a dataset cell that begins with an existence check
on the staged file and raises `FileNotFoundError` from within the generated
notebook at execution time; generation itself is a total function of the
plan and paper record (it performs no filesystem access), so a missing file
does not fail generation. -/
theorem c5_missing_upload_check_deferred_to_execution (plan : PlanDocumentV11)
    (p : PaperRecord) (s : String) (hpath : p.dataset_storage_path = some s) (hne : s ≠ "") :
    generateDatasetCode (get_dataset_generator plan (some p)) plan =
      excelUploadedCode plan (some p) ∧
    containsStr "if not os.path.exists(dataset_path):\n    "
      (generateDatasetCode (get_dataset_generator plan (some p)) plan) ∧
    containsStr "raise FileNotFoundError("
      (generateDatasetCode (get_dataset_generator plan (some p)) plan) := by
  have hsel := factory_upload_override plan p hpath hne
  have hroute : generateDatasetCode (get_dataset_generator plan (some p)) plan =
      excelUploadedCode plan (some p) := by
    rw [hsel]
    show excelCode (some p) plan = excelUploadedCode plan (some p)
    exact excelCode_uploaded plan p hpath hne
  refine ⟨hroute, ?_, ?_⟩
  · rw [hroute]
    exact (excelUploadedCode_contains_guard plan (some p)).1
  · rw [hroute]
    exact (excelUploadedCode_contains_guard plan (some p)).2

/-- C5 (counterexample to the claim as stated) — at a concrete plan and a
concrete paper record claiming a staged upload, generation completes
normally and returns the uploaded-dataset cell text; the
`FileNotFoundError` appears inside that generated text, guarded by an
`os.path.exists` test that the notebook runs at execution time.  The
generator reads no filesystem state (its embedding has no filesystem
argument, faithful to the source, which performs no I/O), so no
"file absent on disk" input can make generation fail. -/
theorem c5_counterexample_generation_never_fails :
    generateDatasetCode (get_dataset_generator planUnknown (some paperUpload)) planUnknown =
      excelUploadedCode planUnknown (some paperUpload) ∧
    containsStr "if not os.path.exists(dataset_path):\n    "
      (excelUploadedCode planUnknown (some paperUpload)) ∧
    containsStr "raise FileNotFoundError("
      (excelUploadedCode planUnknown (some paperUpload)) := by
  refine ⟨?_, (excelUploadedCode_contains_guard planUnknown (some paperUpload)).1,
    (excelUploadedCode_contains_guard planUnknown (some paperUpload)).2⟩
  have hsel := @factory_upload_override planUnknown paperUpload
    "papers/ab/dataset.xls" rfl (by decide)
  rw [hsel]
  exact @excelCode_uploaded planUnknown paperUpload "papers/ab/dataset.xls" rfl (by decide)

theorem c5_missing_upload_check_deferred_to_execution_witness :
    paperUpload.dataset_storage_path = some "papers/ab/dataset.xls" ∧
    ("papers/ab/dataset.xls" : String) ≠ "" ∧
    containsStr "raise FileNotFoundError("
      (generateDatasetCode (get_dataset_generator planUnknown (some paperUpload)) planUnknown) :=
  ⟨rfl, by decide,
   (c5_missing_upload_check_deferred_to_execution planUnknown paperUpload
     "papers/ab/dataset.xls" rfl (by decide)).2.2⟩

/-- C9 — for every plan, plan id, paper context and cell-id stream, the
built notebook has exactly five cells in the fixed order (markdown intro,
setup code, merged-imports code, dataset-generator code, model-generator
code); the intro cell references the plan identifier; the setup cell assigns
`SEED` the plan's configured seed rendered verbatim; and the serialized
bytes are exactly the serialization of this cell structure. -/
theorem c9_notebook_five_cells_seed_verbatim (plan : PlanDocumentV11) (plan_id : String)
    (paper : Option PaperRecord) (ids : Nat → String) :
    (build_notebook plan plan_id paper ids).cells.length = 5 ∧
    (build_notebook plan plan_id paper ids).cells =
      [.markdown (ids 0) (introText plan_id),
       .code (ids 1) (setupCode plan plan_id),
       .code (ids 2) (importsCellSource plan paper),
       .code (ids 3) (generateDatasetCode (get_dataset_generator plan paper) plan),
       .code (ids 4) (generateModelCode (get_model_generator plan) plan)] ∧
    containsStr ("# Plan " ++ plan_id) (introText plan_id) ∧
    containsStr ("SEED = " ++ toString plan.config.seed) (setupCode plan plan_id) ∧
    build_notebook_bytes plan plan_id paper ids =
      serializeNotebook (build_notebook plan plan_id paper ids) := by
  refine ⟨rfl, rfl, ?_, ?_, rfl⟩
  · unfold introText
    repeat
      first
      | exact containsStr_self _
      | exact containsStr_tail2 _ _ _
      | apply containsStr_appendR
  · unfold setupCode
    repeat
      first
      | exact containsStr_tail2 _ _ _
      | apply containsStr_appendR

/-- C10 — `build_requirements` selects generators from the plan alone (the
factory is called without paper context), so for a plan whose paper has a
staged upload and whose dataset name misses the registry, the notebook's
dataset cell is the Excel upload generator's code while the manifest is
computed from the synthetic generator: the Excel generator's requirements
(`xlrd`, `openpyxl`) are absent from the manifest even though the emitted
dataset cell needs them. -/
theorem c10_requirements_ignore_uploaded_dataset (plan : PlanDocumentV11) (plan_id : String)
    (p : PaperRecord) (ids : Nat → String) (s : String)
    (hpath : p.dataset_storage_path = some s) (hne : s ≠ "")
    (hmiss : lookup_dataset plan.dataset.name = none) :
    get_dataset_generator plan none = .synthetic ∧
    get_dataset_generator plan (some p) = .excelGen uploadedMetadata (some p) ∧
    (build_notebook plan plan_id (some p) ids).cells[3]? =
      some (.code (ids 3) (excelUploadedCode plan (some p))) ∧
    build_requirements plan =
      buildRequirementsFrom ["scikit-learn==1.5.1"] ["scikit-learn==1.5.1"] ∧
    "xlrd>=2.0.1" ∉ planManifestLines plan ∧
    "openpyxl>=3.1.0" ∉ planManifestLines plan ∧
    "xlrd>=2.0.1" ∈ generateDatasetRequirements (get_dataset_generator plan (some p)) plan ∧
    "openpyxl>=3.1.0" ∈ generateDatasetRequirements (get_dataset_generator plan (some p)) plan := by
  have hsyn : get_dataset_generator plan none = .synthetic := by
    unfold get_dataset_generator
    rw [if_neg (by simp [paperHasUpload]), hmiss]
  have hexc := factory_upload_override plan p hpath hne
  have hcell : generateDatasetCode (get_dataset_generator plan (some p)) plan =
      excelUploadedCode plan (some p) := by
    rw [hexc]
    show excelCode (some p) plan = excelUploadedCode plan (some p)
    exact excelCode_uploaded plan p hpath hne
  refine ⟨hsyn, hexc, ?_, ?_, ?_, ?_, ?_, ?_⟩
  · simp [build_notebook, hcell]
  · unfold build_requirements
    rw [hsyn]
    rfl
  · intro hmem
    have hx : "xlrd>=2.0.1" ∈ (DEFAULT_REQUIREMENTS ++
        generateDatasetRequirements (get_dataset_generator plan none) plan ++
        generateModelRequirements (get_model_generator plan) plan) :=
      mem_pySortedSet.mp hmem
    rw [hsyn] at hx
    have hx2 : "xlrd>=2.0.1" ∈ (["numpy==1.26.4", "scikit-learn==1.5.1", "pandas==2.2.2",
        "matplotlib==3.9.0", "jupyter==1.1.1", "scikit-learn==1.5.1",
        "scikit-learn==1.5.1"] : List String) := hx
    exact absurd hx2 (by decide)
  · intro hmem
    have hx : "openpyxl>=3.1.0" ∈ (DEFAULT_REQUIREMENTS ++
        generateDatasetRequirements (get_dataset_generator plan none) plan ++
        generateModelRequirements (get_model_generator plan) plan) :=
      mem_pySortedSet.mp hmem
    rw [hsyn] at hx
    have hx2 : "openpyxl>=3.1.0" ∈ (["numpy==1.26.4", "scikit-learn==1.5.1", "pandas==2.2.2",
        "matplotlib==3.9.0", "jupyter==1.1.1", "scikit-learn==1.5.1",
        "scikit-learn==1.5.1"] : List String) := hx
    exact absurd hx2 (by decide)
  · rw [hexc]
    show "xlrd>=2.0.1" ∈ (["pandas==2.2.2", "xlrd>=2.0.1", "openpyxl>=3.1.0",
      "scikit-learn==1.5.1"] : List String)
    decide
  · rw [hexc]
    show "openpyxl>=3.1.0" ∈ (["pandas==2.2.2", "xlrd>=2.0.1", "openpyxl>=3.1.0",
      "scikit-learn==1.5.1"] : List String)
    decide

theorem c10_requirements_ignore_uploaded_dataset_witness :
    paperUpload.dataset_storage_path = some "papers/ab/dataset.xls" ∧
    ("papers/ab/dataset.xls" : String) ≠ "" ∧
    lookup_dataset planUnknown.dataset.name = none ∧
    "xlrd>=2.0.1" ∉ planManifestLines planUnknown ∧
    "xlrd>=2.0.1" ∈
      generateDatasetRequirements (get_dataset_generator planUnknown (some paperUpload)) planUnknown :=
  ⟨rfl, by decide, by decide,
   (c10_requirements_ignore_uploaded_dataset planUnknown "plan-0001" paperUpload
     (fun _ => "cid") "papers/ab/dataset.xls" rfl (by decide) (by decide)).2.2.2.2.1,
   (c10_requirements_ignore_uploaded_dataset planUnknown "plan-0001" paperUpload
     (fun _ => "cid") "papers/ab/dataset.xls" rfl (by decide) (by decide)).2.2.2.2.2.2.1⟩

theorem strAppend_left_cancel {a b c : String} (h : a ++ b = a ++ c) : b = c := by
  apply String.ext
  have hd := congrArg String.data h
  simp only [String.data_append] at hd
  exact List.append_cancel_left hd

theorem strAppend_right_ne (a : String) {b c : String} (h : b ≠ c) : a ++ b ≠ a ++ c :=
  fun he => h (strAppend_left_cancel he)

theorem paramErrMsg_ne (i : Nat) {c₁ p₁ r₁ c₂ p₂ r₂ : String}
    (h : (c₁ ++ " uses invalid parameter \x27" ++ p₁ ++ "\x27. Reason: " ++ r₁) ≠
      (c₂ ++ " uses invalid parameter \x27" ++ p₂ ++ "\x27. Reason: " ++ r₂)) :
    paramErrMsg i c₁ p₁ r₁ ≠ paramErrMsg i c₂ p₂ r₂ :=
  strAppend_right_ne _ h

theorem contains_of_matchClassParam {cls pm l : List Char}
    (h : matchClassParam cls pm l = true) : containsSub cls l = true := by
  unfold matchClassParam at h
  unfold containsSub
  rw [List.any_eq_true] at h ⊢
  obtain ⟨i, hi, hcond⟩ := h
  rw [Bool.and_eq_true] at hcond
  exact ⟨i, hi, hcond.1⟩

theorem count_branch_ne {msg m : String} (c₁ c₂ : Prop) [Decidable c₁] [Decidable c₂]
    (h : m ≠ msg) : (if c₁ then (if c₂ then [m] else []) else []).count msg = 0 := by
  split_ifs <;> simp [List.count_singleton, List.count_nil, beq_iff_eq, h]

theorem cellSklearnErrors_count_one {i : Nat} {src : String} {cls pm reason : String}
    (hrule : (cls, ([pm], reason)) ∈ SKLEARN_PARAM_RULES)
    (hmatch : matchClassParam cls.data pm.data src.data = true) :
    (cellSklearnErrors i src).count (paramErrMsg i cls pm reason) = 1 := by
  have hcont := contains_of_matchClassParam hmatch
  simp only [SKLEARN_PARAM_RULES, List.mem_cons, List.not_mem_nil, or_false,
    Prod.mk.injEq, List.cons.injEq, and_true] at hrule
  simp only [cellSklearnErrors, SKLEARN_PARAM_RULES, List.flatMap_cons, List.flatMap_nil,
    List.append_nil]
  rcases hrule with ⟨rfl, rfl, rfl⟩ | ⟨rfl, rfl, rfl⟩ | ⟨rfl, rfl, rfl⟩ <;>
    rw [if_pos hcont, if_pos hmatch] <;>
    simp only [List.count_append] <;>
    rw [count_branch_ne _ _ (paramErrMsg_ne i (by decide)),
      count_branch_ne _ _ (paramErrMsg_ne i (by decide))] <;>
    simp [List.count_singleton]

theorem mem_enum_of_getElem {nb : Notebook} {i : Nat} {cell : NbCell}
    (hcell : nb.cells[i]? = some cell) : (i, cell) ∈ nb.cells.enum := by
  have h := List.getElem?_enum nb.cells i
  rw [hcell] at h
  exact List.getElem?_mem h

theorem mem_checkSklearnParams_of_cell {nb : Notebook} {i : Nat} {cid src e : String}
    (hcell : nb.cells[i]? = some (.code cid src))
    (he : e ∈ cellSklearnErrors i src) : e ∈ checkSklearnParams nb := by
  unfold checkSklearnParams
  rw [List.mem_flatMap]
  exact ⟨(i, .code cid src), mem_enum_of_getElem hcell, he⟩

theorem mem_checkSyntaxErrors_of_cell {cf : String → CompileOutcome} {nb : Notebook}
    {i : Nat} {cell : NbCell} {e : String}
    (hcell : nb.cells[i]? = some cell)
    (he : e ∈ cellSyntaxErrors cf i cell) : e ∈ checkSyntaxErrors cf nb := by
  unfold checkSyntaxErrors
  rw [List.mem_flatMap]
  exact ⟨(i, cell), mem_enum_of_getElem hcell, he⟩

theorem mem_validate_errors_of_sklearn {cf : String → CompileOutcome} {nb : Notebook}
    {e : String} (he : e ∈ checkSklearnParams nb) :
    e ∈ (validateNotebook cf nb).errors := by
  show e ∈ checkSyntaxErrors cf nb ++ checkSklearnParams nb
  exact List.mem_append.mpr (.inr he)

theorem mem_validate_errors_of_syntaxCheck {cf : String → CompileOutcome} {nb : Notebook}
    {e : String} (he : e ∈ checkSyntaxErrors cf nb) :
    e ∈ (validateNotebook cf nb).errors := by
  show e ∈ checkSyntaxErrors cf nb ++ checkSklearnParams nb
  exact List.mem_append.mpr (.inl he)

/-- C6 — for any notebook and any code cell at index `i`: (a) for each rule
table entry whose forbidden-parameter regex matches the cell source, that
cell contributes exactly one parameter error, the error names the construct,
the parameter and the cell index, and it surfaces in the aggregate
validation errors; (b) when the compile oracle reports a `SyntaxError` on
the cell's source (as CPython's `compile` does for unbalanced parentheses),
that cell contributes exactly the one syntax error, which cites the correct
cell index and surfaces in the aggregate validation errors. -/
theorem c6_vectorizer_seed_and_unbalanced_paren_errors
    (cf : String → CompileOutcome) (nb : Notebook) (i : Nat) (cid src : String)
    (hcell : nb.cells[i]? = some (.code cid src)) :
    (∀ cls pm reason, (cls, ([pm], reason)) ∈ SKLEARN_PARAM_RULES →
      matchClassParam cls.data pm.data src.data = true →
      (cellSklearnErrors i src).count (paramErrMsg i cls pm reason) = 1 ∧
      paramErrMsg i cls pm reason ∈ (validateNotebook cf nb).errors ∧
      containsStr cls (paramErrMsg i cls pm reason) ∧
      containsStr pm (paramErrMsg i cls pm reason) ∧
      containsStr ("Cell " ++ toString i) (paramErrMsg i cls pm reason)) ∧
    (∀ lineno msg, cf src = .syntaxError lineno msg →
      cellSyntaxErrors cf i (.code cid src) = [syntaxErrMsg i lineno msg] ∧
      syntaxErrMsg i lineno msg ∈ (validateNotebook cf nb).errors ∧
      containsStr ("cell " ++ toString i) (syntaxErrMsg i lineno msg)) := by
  constructor
  · intro cls pm reason hrule hmatch
    have hcount := @cellSklearnErrors_count_one i src cls pm reason hrule hmatch
    refine ⟨hcount, ?_, ?_, ?_, ?_⟩
    · refine mem_validate_errors_of_sklearn (mem_checkSklearnParams_of_cell hcell ?_)
      exact List.count_pos_iff.mp (by rw [hcount]; exact Nat.one_pos)
    · exact ⟨"Cell " ++ toString i ++ ": ",
        " uses invalid parameter \x27" ++ pm ++ "\x27. Reason: " ++ reason,
        by simp [paramErrMsg, String.append_assoc]⟩
    · exact ⟨("Cell " ++ toString i ++ ": ") ++ cls ++ " uses invalid parameter \x27",
        "\x27. Reason: " ++ reason,
        by simp [paramErrMsg, String.append_assoc]⟩
    · exact ⟨"", (": ") ++
        (cls ++ " uses invalid parameter \x27" ++ pm ++ "\x27. Reason: " ++ reason),
        by simp [paramErrMsg, String.append_assoc]⟩
  · intro lineno msg hcf
    have hone : cellSyntaxErrors cf i (.code cid src) = [syntaxErrMsg i lineno msg] := by
      simp [cellSyntaxErrors, hcf]
    refine ⟨hone, ?_, ?_⟩
    · refine mem_validate_errors_of_syntaxCheck (mem_checkSyntaxErrors_of_cell hcell ?_)
      rw [hone]
      exact List.mem_singleton.mpr rfl
    · exact ⟨"Syntax error in ",
        " at line " ++ toString lineno ++ ": " ++ msg,
        by simp [syntaxErrMsg, String.append_assoc]⟩

/-- A concrete compile oracle: reports the `SyntaxError` CPython's `compile`
raises on the unbalanced-parenthesis source `"(("`, accepts everything else. -/
def cfSample : String → CompileOutcome :=
  fun s => if s = "((" then .syntaxError 1 "\x27(\x27 was never closed" else .ok

/-- The vectorizer-misuse cell source used by the concrete validator checks. -/
def c6src : String := "vectorizer = CountVectorizer(max_features=1000, random_state=SEED)"

/-- A concrete notebook with one clean cell, one vectorizer-misuse cell and
one unbalanced-parenthesis cell. -/
def nbSample : Notebook :=
  ⟨[.code "cid0" "x = 1",
    .code "cid1" c6src,
    .code "cid2" "(("]⟩

theorem c6_vectorizer_seed_and_unbalanced_paren_errors_witness :
    nbSample.cells[1]? = some (.code "cid1" c6src) ∧
    ("CountVectorizer", (["random_state"],
      "CountVectorizer is deterministic and does not accept random_state")) ∈
        SKLEARN_PARAM_RULES ∧
    matchClassParam "CountVectorizer".data "random_state".data c6src.data = true ∧
    (cellSklearnErrors 1 c6src).count
      (paramErrMsg 1 "CountVectorizer" "random_state"
        "CountVectorizer is deterministic and does not accept random_state") = 1 ∧
    cfSample "((" = .syntaxError 1 "\x27(\x27 was never closed" ∧
    cellSyntaxErrors cfSample 2 (.code "cid2" "((") =
      [syntaxErrMsg 2 1 "\x27(\x27 was never closed"] ∧
    (validateNotebook cfSample nbSample).errors =
      [syntaxErrMsg 2 1 "\x27(\x27 was never closed",
       paramErrMsg 1 "CountVectorizer" "random_state"
         "CountVectorizer is deterministic and does not accept random_state"] ∧
    (validateNotebook cfSample nbSample).valid = false :=
  ⟨rfl, by decide, by decide,
   ((c6_vectorizer_seed_and_unbalanced_paren_errors cfSample nbSample 1 "cid1" c6src rfl).1
     "CountVectorizer" "random_state"
     "CountVectorizer is deterministic and does not accept random_state"
     (by decide) (by decide)).1,
   rfl,
   ((c6_vectorizer_seed_and_unbalanced_paren_errors cfSample nbSample 2 "cid2" "((" rfl).2
     1 "\x27(\x27 was never closed" rfl).1,
   by decide, by decide⟩

/-- C7 — the syntax check visits every code cell in isolation and collects
every failure (recording the cell index plus line number and message for a
`SyntaxError`, or the message for any other compile exception) without
aborting on the first failing cell, and the aggregate result satisfies
`valid = true` exactly when the combined error list of all checks is empty. -/
theorem c7_validator_collects_all_and_valid_iff_no_errors
    (cf : String → CompileOutcome) (nb : Notebook) :
    (∀ i cid src lineno msg, nb.cells[i]? = some (.code cid src) →
      cf src = .syntaxError lineno msg →
      syntaxErrMsg i lineno msg ∈ (validateNotebook cf nb).errors) ∧
    (∀ i cid src msg, nb.cells[i]? = some (.code cid src) →
      cf src = .otherError msg →
      compileErrMsg i msg ∈ (validateNotebook cf nb).errors) ∧
    (validateNotebook cf nb).errors = checkSyntaxErrors cf nb ++ checkSklearnParams nb ∧
    ((validateNotebook cf nb).valid = true ↔ (validateNotebook cf nb).errors = []) := by
  refine ⟨?_, ?_, rfl, ?_⟩
  · intro i cid src lineno msg hcell hcf
    refine mem_validate_errors_of_syntaxCheck (mem_checkSyntaxErrors_of_cell hcell ?_)
    simp [cellSyntaxErrors, hcf]
  · intro i cid src msg hcell hcf
    refine mem_validate_errors_of_syntaxCheck (mem_checkSyntaxErrors_of_cell hcell ?_)
    simp [cellSyntaxErrors, hcf]
  · show (checkSyntaxErrors cf nb ++ checkSklearnParams nb).isEmpty = true ↔ _
    exact List.isEmpty_iff

/-- A compile oracle that fails on two distinct sources, used to observe the
collect-all behavior on a notebook with two failing cells. -/
def cfTwoFailures : String → CompileOutcome :=
  fun s =>
    if s = "((" then .syntaxError 1 "\x27(\x27 was never closed"
    else if s = "def f(:" then .syntaxError 1 "invalid syntax"
    else .ok

/-- A concrete notebook whose first and third cells both fail to compile. -/
def nbTwoFailures : Notebook :=
  ⟨[.code "cid0" "((",
    .code "cid1" "y = 2",
    .code "cid2" "def f(:"]⟩

theorem c7_validator_collects_all_and_valid_iff_no_errors_witness :
    nbTwoFailures.cells[0]? = some (.code "cid0" "((") ∧
    nbTwoFailures.cells[2]? = some (.code "cid2" "def f(:") ∧
    cfTwoFailures "((" = .syntaxError 1 "\x27(\x27 was never closed" ∧
    cfTwoFailures "def f(:" = .syntaxError 1 "invalid syntax" ∧
    syntaxErrMsg 0 1 "\x27(\x27 was never closed" ∈
      (validateNotebook cfTwoFailures nbTwoFailures).errors ∧
    syntaxErrMsg 2 1 "invalid syntax" ∈
      (validateNotebook cfTwoFailures nbTwoFailures).errors ∧
    (validateNotebook cfTwoFailures nbTwoFailures).errors =
      [syntaxErrMsg 0 1 "\x27(\x27 was never closed", syntaxErrMsg 2 1 "invalid syntax"] ∧
    (validateNotebook cfTwoFailures nbTwoFailures).valid = false ∧
    ((validateNotebook cfTwoFailures (Notebook.mk [])).valid = true ↔
      (validateNotebook cfTwoFailures (Notebook.mk [])).errors = []) :=
  ⟨rfl, rfl, rfl, rfl,
   (c7_validator_collects_all_and_valid_iff_no_errors cfTwoFailures nbTwoFailures).1
     0 "cid0" "((" 1 "\x27(\x27 was never closed" rfl rfl,
   (c7_validator_collects_all_and_valid_iff_no_errors cfTwoFailures nbTwoFailures).1
     2 "cid2" "def f(:" 1 "invalid syntax" rfl rfl,
   by decide, by decide,
   (c7_validator_collects_all_and_valid_iff_no_errors cfTwoFailures (Notebook.mk [])).2.2.2⟩

/-- Serialization is sensitive to the first cell's id: two notebooks that
differ only in the id of their first (markdown) cell serialize to different
text. -/
theorem serializeNotebook_ne_of_first_id_ne {idA idB s : String} {rest : List NbCell}
    (hlen : idA.length = idB.length) (hne : idA ≠ idB)
    (heA : jsonEscape idA = idA) (heB : jsonEscape idB = idB) :
    serializeNotebook ⟨.markdown idA s :: rest⟩ ≠ serializeNotebook ⟨.markdown idB s :: rest⟩ := by
  intro h
  simp only [serializeNotebook, serializeCells, serializeCell, jsonStr] at h
  rw [heA, heB] at h
  have hd := congrArg String.data h
  simp only [String.data_append, List.append_assoc] at hd
  have hd1 := List.append_cancel_left hd
  have hd2 := List.append_cancel_left hd1
  have hd3 := List.append_cancel_left hd2
  have hdat : idA.data = idB.data :=
    (List.append_inj hd3 (show idA.data.length = idB.data.length from hlen)).1
  exact hne (String.ext hdat)

/-- The constant id stream `"aaaaaaaa"` (one draw of nbformat's random cell
ids in one invocation). -/
def idsA : Nat → String := fun _ => "aaaaaaaa"

/-- An id stream differing from `idsA` only in the first draw (a second
invocation drawing a different random id for the intro cell). -/
def idsB : Nat → String := fun n => if n = 0 then "bbbbbbbb" else "aaaaaaaa"

/-- The builder is a pure function of plan, plan id, paper context and the
drawn cell-id stream: invocations with pointwise-equal id draws produce
equal text (all remaining inputs are those listed — the embedding has no
timestamps or other hidden state, faithful to the source). -/
theorem build_notebook_bytes_congr_ids (plan : PlanDocumentV11) (plan_id : String)
    (paper : Option PaperRecord) (ids ids2 : Nat → String) (h : ∀ n, ids n = ids2 n) :
    build_notebook_bytes plan plan_id paper ids =
      build_notebook_bytes plan plan_id paper ids2 := by
  simp [build_notebook_bytes, build_notebook, h 0, h 1, h 2, h 3, h 4]

theorem build_notebook_bytes_congr_ids_witness :
    (∀ n : Nat, idsA n = idsA n) ∧
    build_notebook_bytes planSST2 "plan-0001" none idsA =
      build_notebook_bytes planSST2 "plan-0001" none idsA :=
  ⟨fun _ => rfl,
   build_notebook_bytes_congr_ids planSST2 "plan-0001" none idsA idsA (fun _ => rfl)⟩

/-- C2 — nbformat ≥ 5.1 draws a fresh random id per cell on every
invocation of `new_markdown_cell` / `new_code_cell`, and the serialized
output is sensitive to those ids: two invocations of `build_notebook_bytes`
on the identical plan whose random id draws differ in even one cell produce
different notebook text.  Repeated invocations on a fixed plan are therefore
not byte-identical — the cell `id` fields are embedded random identifiers,
contradicting the determinism invariant. -/
theorem c2_notebook_bytes_random_cell_ids_break_determinism :
    build_notebook_bytes planSST2 "plan-0001" none idsA ≠
      build_notebook_bytes planSST2 "plan-0001" none idsB := by
  have hA : build_notebook_bytes planSST2 "plan-0001" none idsA =
      serializeNotebook ⟨.markdown "aaaaaaaa" (introText "plan-0001") ::
          [.code "aaaaaaaa" (setupCode planSST2 "plan-0001"),
           .code "aaaaaaaa" (importsCellSource planSST2 none),
           .code "aaaaaaaa" (generateDatasetCode (get_dataset_generator planSST2 none) planSST2),
           .code "aaaaaaaa" (generateModelCode (get_model_generator planSST2) planSST2)]⟩ := rfl
  have hB : build_notebook_bytes planSST2 "plan-0001" none idsB =
      serializeNotebook ⟨.markdown "bbbbbbbb" (introText "plan-0001") ::
        [.code "aaaaaaaa" (setupCode planSST2 "plan-0001"),
         .code "aaaaaaaa" (importsCellSource planSST2 none),
         .code "aaaaaaaa" (generateDatasetCode (get_dataset_generator planSST2 none) planSST2),
         .code "aaaaaaaa" (generateModelCode (get_model_generator planSST2) planSST2)]⟩ := rfl
  rw [hA, hB]
  exact serializeNotebook_ne_of_first_id_ne (by decide) (by decide) (by decide) (by decide)
